import Mathlib

/-!
Verification of the label-selector and node-affinity matching core of the
Firmament scheduler (src/scheduling/label_utils.cc).

The C++ code is shallowly embedded:
  - protobuf messages become Lean structures;
  - the protobuf enum LabelSelector.SelectorType is modelled by its numeric
    value (a Nat), since the C++ switch dispatches on the numeric value and
    has a fatal default branch for values outside the enumeration;
  - unordered_map<string, string> becomes an association list
    List (String × String) queried by List.lookup (keys are unique in every
    map the code builds, so lookup order is irrelevant for those maps);
  - LOG(FATAL) (process abort) is modelled by Option: a function that can
    hit the fatal branch returns none there and some b on a normal return.
-/

namespace Firmament

/-- A resource label: key/value string pair (protobuf message Label). -/
structure Label where
  key : String
  value : String
deriving DecidableEq, Repr

/-- Protobuf message LabelSelector: selector type (numeric enum value:
0 = IN_SET, 1 = NOT_IN_SET, 2 = EXISTS_KEY, 3 = NOT_EXISTS_KEY), key,
and candidate values. -/
structure LabelSelector where
  key : String
  type : Nat
  values : List String
deriving DecidableEq, Repr

/-- Protobuf message NodeSelectorRequirement: key, operator name, values. -/
structure NodeSelectorRequirement where
  key : String
  operator_ : String
  values : List String
deriving DecidableEq, Repr

/-- Protobuf message NodeSelectorTerm: a conjunction of requirements. -/
structure NodeSelectorTerm where
  matchExpressions : List NodeSelectorRequirement
deriving DecidableEq, Repr

/-- The requiredDuringSchedulingIgnoredDuringExecution message: a list of
node selector terms. -/
structure NodeSelector where
  nodeSelectorTerms : List NodeSelectorTerm
deriving DecidableEq, Repr

/-- Protobuf message NodeAffinity; the required field is an optional
submessage (has_requiredduringschedulingignoredduringexecution). -/
structure NodeAffinity where
  requiredDuringSchedulingIgnoredDuringExecution : Option NodeSelector
deriving DecidableEq, Repr

/-- Protobuf message Affinity; node_affinity is an optional submessage. -/
structure Affinity where
  node_affinity : Option NodeAffinity
deriving DecidableEq, Repr

/-- The slice of ResourceDescriptor used by label_utils.cc: its labels. -/
structure ResourceDescriptor where
  labels : List Label
deriving DecidableEq, Repr

/-- The slice of TaskDescriptor used by label_utils.cc: label selectors and
the optional affinity submessage. -/
structure TaskDescriptor where
  label_selectors : List LabelSelector
  affinity : Option Affinity
deriving DecidableEq, Repr

/-- misc/map-util.h InsertIfNotPresent: inserts (k, v) only when k is not
already bound; an existing binding is kept unchanged. -/
def InsertIfNotPresent (m : List (String × String)) (k v : String) :
    List (String × String) :=
  match m.lookup k with
  | some _ => m
  | none => (k, v) :: m

/-- misc/map-util.h FindOrNull: the value bound to k, if any. -/
def FindOrNull (m : List (String × String)) (k : String) : Option String :=
  m.lookup k

/-- misc/map-util.h ContainsKey: whether k is bound in the map. -/
def ContainsKey (m : List (String × String)) (k : String) : Bool :=
  (m.lookup k).isSome

/-- The rd_labels map both SatisfiesLabelSelectors overloads build from
rd.labels(): InsertIfNotPresent over the label list in order. -/
def BuildLabelMap (labels : List Label) : List (String × String) :=
  labels.foldl (fun m l => InsertIfNotPresent m l.key l.value) []

/-- label_utils.cc SatisfiesLabelSelector(rd_labels, selector_values,
selector), the core switch: IN_SET (0) is membership of the bound value in
selector_values (false when the key is unbound); NOT_IN_SET (1) is its
complement (true when the key is unbound); EXISTS_KEY (2) / NOT_EXISTS_KEY
(3) are key presence / absence; any other type hits LOG(FATAL), modelled
as none. -/
def SatisfiesLabelSelectorCore (rd_labels : List (String × String))
    (selector_values : List String) (selector : LabelSelector) : Option Bool :=
  if selector.type = 0 then
    match FindOrNull rd_labels selector.key with
    | some value => some (selector_values.contains value)
    | none => some false
  else if selector.type = 1 then
    match FindOrNull rd_labels selector.key with
    | some value => some (!selector_values.contains value)
    | none => some true
  else if selector.type = 2 then
    some (ContainsKey rd_labels selector.key)
  else if selector.type = 3 then
    some (!ContainsKey rd_labels selector.key)
  else
    none

/-- label_utils.cc SatisfiesLabelSelector(rd_labels, selector): builds the
selector_values set from selector.values() and dispatches to the core.
(Set membership over the inserted values equals list membership.) -/
def SatisfiesLabelSelectorMap (rd_labels : List (String × String))
    (selector : LabelSelector) : Option Bool :=
  SatisfiesLabelSelectorCore rd_labels selector.values selector

/-- The selector loop of label_utils.cc SatisfiesLabelSelectors: AND over
the selectors with short-circuit on the first unsatisfied one; a fatal
evaluation aborts the whole loop. -/
def SatisfiesLabelSelectorsFromMap (rd_labels : List (String × String)) :
    List LabelSelector → Option Bool
  | [] => some true
  | selector :: rest =>
    match SatisfiesLabelSelectorMap rd_labels selector with
    | none => none
    | some false => some false
    | some true => SatisfiesLabelSelectorsFromMap rd_labels rest

/-- label_utils.cc SatisfiesLabelSelectors(rd, selectors): builds rd_labels
from rd.labels() via InsertIfNotPresent, then checks every selector. -/
def SatisfiesLabelSelectors (rd : ResourceDescriptor)
    (selectors : List LabelSelector) : Option Bool :=
  SatisfiesLabelSelectorsFromMap (BuildLabelMap rd.labels) selectors

/-- label_utils.cc SatisfiesLabelSelector(rd, selector): builds rd_labels
from rd.labels() and checks the single selector. -/
def SatisfiesLabelSelectorRD (rd : ResourceDescriptor)
    (selector : LabelSelector) : Option Bool :=
  SatisfiesLabelSelectorMap (BuildLabelMap rd.labels) selector

/-- The operator-name mapping of
NodeSelectorRequirementsAsLabelSelectors: type starts at 0 and the if
chain only overwrites it for the three non-In recognised names, so an
unrecognised operator keeps 0. -/
def OperatorToType (operator_type : String) : Nat :=
  if operator_type = "In" then 0
  else if operator_type = "NotIn" then 1
  else if operator_type = "Exists" then 2
  else if operator_type = "DoesNotExist" then 3
  else 0

/-- label_utils.cc NodeSelectorRequirementsAsLabelSelectors: one
LabelSelector per requirement, copying key and values and translating the
operator name to a selector type. -/
def NodeSelectorRequirementsAsLabelSelectors
    (matchExpressions : List NodeSelectorRequirement) : List LabelSelector :=
  matchExpressions.map (fun nsm =>
    { key := nsm.key, type := OperatorToType nsm.operator_,
      values := nsm.values })

/-- label_utils.cc SatisfiesMatchExpressions. -/
def SatisfiesMatchExpressions (rd : ResourceDescriptor)
    (matchExpressions : List NodeSelectorRequirement) : Option Bool :=
  SatisfiesLabelSelectors rd
    (NodeSelectorRequirementsAsLabelSelectors matchExpressions)

/-- label_utils.cc NodeMatchesNodeSelectorTerm: a term with zero match
expressions never matches. -/
def NodeMatchesNodeSelectorTerm (rd : ResourceDescriptor)
    (nodeSelectorTerm : NodeSelectorTerm) : Option Bool :=
  if nodeSelectorTerm.matchExpressions.length = 0 then
    some false
  else
    SatisfiesMatchExpressions rd nodeSelectorTerm.matchExpressions

/-- label_utils.cc NodeMatchesNodeSelectorTerms: OR over the terms,
skipping terms with zero match expressions; false over the empty list. -/
def NodeMatchesNodeSelectorTerms (rd : ResourceDescriptor) :
    List NodeSelectorTerm → Option Bool
  | [] => some false
  | req :: rest =>
    if req.matchExpressions.length = 0 then
      NodeMatchesNodeSelectorTerms rd rest
    else
      match SatisfiesMatchExpressions rd req.matchExpressions with
      | none => none
      | some false => NodeMatchesNodeSelectorTerms rd rest
      | some true => some true

/-- label_utils.cc SatisfiesNodeSelectorAndNodeAffinity: reject when the
task's explicit label selectors are unsatisfied; then, when affinity and
node_affinity are present: if the required submessage is absent, return
true (select all nodes); if it is present with a non-empty term list,
match the term list; if it is present with an empty term list, the guard
skips the match and nodeAffinityMatches stays true. -/
def SatisfiesNodeSelectorAndNodeAffinity (rd : ResourceDescriptor)
    (td : TaskDescriptor) : Option Bool :=
  let precheck : Option Bool :=
    if td.label_selectors.length ≠ 0 then
      SatisfiesLabelSelectors rd td.label_selectors
    else
      some true
  match precheck with
  | none => none
  | some false => some false
  | some true =>
    match td.affinity with
    | none => some true
    | some affinity =>
      match affinity.node_affinity with
      | none => some true
      | some na =>
        match na.requiredDuringSchedulingIgnoredDuringExecution with
        | none => some true
        | some req =>
          if req.nodeSelectorTerms.length ≠ 0 then
            NodeMatchesNodeSelectorTerms rd req.nodeSelectorTerms
          else
            some true

/-- The body of the HashSelectors loop for one selector: combine the hash
of the key into the seed, then the hash of each value in order. The
selector's type field is never read. -/
def HashSelectorStep (hashStr : String → Nat) (hashCombine : Nat → Nat → Nat)
    (seed : Nat) (label_selector : LabelSelector) : Nat :=
  label_selector.values.foldl
    (fun s value => hashCombine s (hashStr value))
    (hashCombine seed (hashStr label_selector.key))

/-- label_utils.cc HashSelectors: fold the per-selector step over the
selectors starting from seed 0. The hash primitives (HashString from
misc/utils.h and boost hash_combine) live outside this repository slice,
so they are parameters; the fold structure is the one of the source. -/
def HashSelectors (hashStr : String → Nat) (hashCombine : Nat → Nat → Nat)
    (selectors : List LabelSelector) : Nat :=
  selectors.foldl (HashSelectorStep hashStr hashCombine) 0

/-- Modelled from the spec: a label map in which, on a key collision,
"last write wins" — each label overwrites any earlier binding of its key,
so lookup finds the most recently written value. Spec-side definition,
used only to compare against the map the code builds. -/
def LastWriteWinsMap (labels : List Label) : List (String × String) :=
  labels.foldl (fun m l => (l.key, l.value) :: m) []

/-- The association list of the labels in order; lookup finds the value of
the first entry carrying the key (a first-write-wins map). -/
def FirstWriteWinsMap (labels : List Label) : List (String × String) :=
  labels.map (fun l => (l.key, l.value))

/-- The core selector evaluation only reads a label map through lookup at
the selector's key, so maps with equal lookups evaluate equally. -/
theorem satisfiesLabelSelectorCore_lookup_congr
    (m1 m2 : List (String × String)) (vals : List String)
    (sel : LabelSelector) (h : m1.lookup sel.key = m2.lookup sel.key) :
    SatisfiesLabelSelectorCore m1 vals sel =
      SatisfiesLabelSelectorCore m2 vals sel := by
  unfold SatisfiesLabelSelectorCore FindOrNull ContainsKey
  rw [h]

/-- Folding InsertIfNotPresent over labels on top of an accumulator: a key
already bound in the accumulator keeps its binding, and otherwise the
first occurrence in the label list wins. -/
theorem buildLabelMap_foldl_lookup (labels : List Label)
    (acc : List (String × String)) (k : String) :
    (labels.foldl (fun m l => InsertIfNotPresent m l.key l.value) acc).lookup k
      = (acc.lookup k).or ((FirstWriteWinsMap labels).lookup k) := by
  induction labels generalizing acc with
  | nil => simp [FirstWriteWinsMap]
  | cons l rest ih =>
    simp only [List.foldl_cons, FirstWriteWinsMap, List.map_cons]
    rw [ih]
    unfold InsertIfNotPresent
    cases hk : acc.lookup l.key with
    | some v =>
      cases hbeq : k == l.key with
      | true =>
        have hkey : k = l.key := eq_of_beq hbeq
        subst hkey
        simp [List.lookup_cons, hk]
      | false =>
        simp [List.lookup_cons, hbeq, FirstWriteWinsMap]
    | none =>
      cases hbeq : k == l.key with
      | true =>
        have hkey : k = l.key := eq_of_beq hbeq
        subst hkey
        simp [List.lookup_cons, hk]
      | false =>
        simp [List.lookup_cons, hbeq, FirstWriteWinsMap]

/-- The map SatisfiesLabelSelectors builds from a resource's labels has
the same lookups as the first-write-wins association list. -/
theorem buildLabelMap_lookup (labels : List Label) (k : String) :
    (BuildLabelMap labels).lookup k = (FirstWriteWinsMap labels).lookup k := by
  unfold BuildLabelMap
  rw [buildLabelMap_foldl_lookup]
  simp

/-- C1: for every label map and every IN_SET selector with value set V,
SatisfiesLabelSelector returns true iff the selector's key is bound in the
map and the bound value is a member of V; when the key is absent it
returns false. -/
theorem c1_in_set_semantics (m : List (String × String)) (sel : LabelSelector)
    (hty : sel.type = 0) :
    (SatisfiesLabelSelectorMap m sel = some true ↔
      ∃ v, FindOrNull m sel.key = some v ∧ sel.values.contains v = true) ∧
    (FindOrNull m sel.key = none → SatisfiesLabelSelectorMap m sel = some false) := by
  unfold SatisfiesLabelSelectorMap SatisfiesLabelSelectorCore
  rw [hty]
  constructor
  · cases h : FindOrNull m sel.key with
    | none => simp [h]
    | some v => simp [h]
  · intro h
    simp [h]

/-- Witness for C1 at the spec's scenario A: resource label zone=us-east,
selector IN_SET(zone, set containing us-east and us-west). -/
theorem c1_in_set_semantics_witness :
    SatisfiesLabelSelectorMap [("zone", "us-east")]
      ⟨"zone", 0, ["us-east", "us-west"]⟩ = some true :=
  (c1_in_set_semantics [("zone", "us-east")]
      ⟨"zone", 0, ["us-east", "us-west"]⟩ rfl).1.mpr
    ⟨"us-east", by decide, by decide⟩

/-- C2 counterexample: with the key absent from the map, the IN_SET
selector evaluates to false, not true — refuting the claim that both the
IN_SET and the NOT_IN_SET selector return true when the key is absent. -/
theorem c2_counterexample :
    FindOrNull [] "zone" = none ∧
    SatisfiesLabelSelectorMap ([] : List (String × String))
      ⟨"zone", 0, ["us-east"]⟩ ≠ some true ∧
    SatisfiesLabelSelectorMap ([] : List (String × String))
      ⟨"zone", 0, ["us-east"]⟩ = some false := by
  exact ⟨rfl, by decide, by decide⟩

/-- C2 amended: when the key is bound, the NOT_IN_SET selector returns the
exact logical negation of the IN_SET selector with the same key and
values; when the key is absent, IN_SET returns false and NOT_IN_SET
returns true. -/
theorem c2_not_in_set_negation (m : List (String × String)) (key : String)
    (values : List String) :
    (∀ v, FindOrNull m key = some v →
      SatisfiesLabelSelectorMap m ⟨key, 1, values⟩ =
        Option.map (fun b => !b) (SatisfiesLabelSelectorMap m ⟨key, 0, values⟩)) ∧
    (FindOrNull m key = none →
      SatisfiesLabelSelectorMap m ⟨key, 0, values⟩ = some false ∧
      SatisfiesLabelSelectorMap m ⟨key, 1, values⟩ = some true) := by
  unfold SatisfiesLabelSelectorMap SatisfiesLabelSelectorCore
  constructor
  · intro v h
    simp [h]
  · intro h
    simp [h]

/-- Witness for C2's amended claim at the spec's scenario B resource:
zone=us-east with key present. -/
theorem c2_not_in_set_negation_witness :
    SatisfiesLabelSelectorMap [("zone", "us-east")] ⟨"zone", 1, ["us-east"]⟩ =
      Option.map (fun b => !b)
        (SatisfiesLabelSelectorMap [("zone", "us-east")] ⟨"zone", 0, ["us-east"]⟩) :=
  (c2_not_in_set_negation [("zone", "us-east")] "zone" ["us-east"]).1
    "us-east" (by decide)

/-- C8: for a selector whose numeric type is one of the four enumeration
members the evaluation returns a boolean (never the fatal branch); for a
type outside the enumeration it hits the fatal branch (none) instead of
returning a boolean. -/
theorem c8_closed_selector_kinds (m : List (String × String))
    (sel : LabelSelector) :
    (sel.type ∈ [0, 1, 2, 3] → ∃ b, SatisfiesLabelSelectorMap m sel = some b) ∧
    (sel.type ∉ [0, 1, 2, 3] → SatisfiesLabelSelectorMap m sel = none) := by
  unfold SatisfiesLabelSelectorMap SatisfiesLabelSelectorCore
  constructor
  · intro h
    simp only [List.mem_cons, List.not_mem_nil, or_false] at h
    rcases h with h | h | h | h <;> rw [h] <;>
      first
        | exact ⟨_, rfl⟩
        | (cases hf : FindOrNull m sel.key <;> simp [hf] <;> exact or_not)
  · intro h
    simp only [List.mem_cons, List.not_mem_nil, or_false] at h
    push_neg at h
    obtain ⟨h0, h1, h2, h3⟩ := h
    rw [if_neg h0, if_neg h1, if_neg h2, if_neg h3]

/-- Witness for C8: EXISTS_KEY (type 2) returns a boolean; type 7 is
outside the enumeration and evaluates to the fatal branch. -/
theorem c8_closed_selector_kinds_witness :
    (SatisfiesLabelSelectorMap [] ⟨"k", 2, []⟩).isSome = true ∧
    SatisfiesLabelSelectorMap [] ⟨"k", 7, []⟩ = none := by
  constructor
  · obtain ⟨b, hb⟩ := (c8_closed_selector_kinds [] ⟨"k", 2, []⟩).1 (by decide)
    rw [hb]
    rfl
  · exact (c8_closed_selector_kinds [] ⟨"k", 7, []⟩).2 (by decide)

/-- C9: EXISTS_KEY (type 2) and NOT_EXISTS_KEY (type 3) selectors give the
same result for any two value sets V1 and V2 — the result is exactly key
presence (respectively absence) in the map. -/
theorem c9_exists_key_value_independent (m : List (String × String))
    (key : String) (V1 V2 : List String) :
    (SatisfiesLabelSelectorMap m ⟨key, 2, V1⟩ =
      SatisfiesLabelSelectorMap m ⟨key, 2, V2⟩) ∧
    (SatisfiesLabelSelectorMap m ⟨key, 2, V1⟩ = some (ContainsKey m key)) ∧
    (SatisfiesLabelSelectorMap m ⟨key, 3, V1⟩ =
      SatisfiesLabelSelectorMap m ⟨key, 3, V2⟩) ∧
    (SatisfiesLabelSelectorMap m ⟨key, 3, V1⟩ = some (!ContainsKey m key)) :=
  ⟨rfl, rfl, rfl, rfl⟩

/-- A task declaring node affinity whose required submessage is present
with an empty node-selector-term list, and no label selectors. -/
def c3_td : TaskDescriptor :=
  ⟨[], some ⟨some ⟨some ⟨[]⟩⟩⟩⟩

/-- C3 counterexample: on a task whose required-during-scheduling field is
present with an empty term list, SatisfiesNodeSelectorAndNodeAffinity
returns true, not false — the empty-list guard skips the match instead of
rejecting. -/
theorem c3_counterexample :
    SatisfiesNodeSelectorAndNodeAffinity ⟨[]⟩ c3_td ≠ some false ∧
    SatisfiesNodeSelectorAndNodeAffinity ⟨[]⟩ c3_td = some true := by
  exact ⟨by decide, by decide⟩

/-- C3 amended: for every task whose required-during-scheduling field is
present but whose node-selector-term list is empty, and every resource,
SatisfiesNodeSelectorAndNodeAffinity ignores the node affinity and returns
exactly the result of the label-selector check (so true whenever the
task's label selectors, if any, are satisfied). -/
theorem c3_empty_required_terms_no_constraint (rd : ResourceDescriptor)
    (td : TaskDescriptor) (aff : Affinity) (na : NodeAffinity)
    (req : NodeSelector)
    (h1 : td.affinity = some aff) (h2 : aff.node_affinity = some na)
    (h3 : na.requiredDuringSchedulingIgnoredDuringExecution = some req)
    (h4 : req.nodeSelectorTerms = []) :
    SatisfiesNodeSelectorAndNodeAffinity rd td =
      SatisfiesLabelSelectors rd td.label_selectors := by
  unfold SatisfiesNodeSelectorAndNodeAffinity
  by_cases hsel : td.label_selectors.length = 0
  · have hnil : td.label_selectors = [] := List.length_eq_zero.mp hsel
    simp [hnil, h1, h2, h3, h4, SatisfiesLabelSelectors,
      SatisfiesLabelSelectorsFromMap]
  · cases hS : SatisfiesLabelSelectors rd td.label_selectors with
    | none => simp [hsel, hS]
    | some b =>
      cases b with
      | false => simp [hsel, hS]
      | true => simp [hsel, hS, h1, h2, h3, h4]

/-- Witness for C3's amended claim at the counterexample's concrete task
and an unlabelled resource. -/
theorem c3_empty_required_terms_no_constraint_witness :
    SatisfiesNodeSelectorAndNodeAffinity ⟨[]⟩ c3_td =
      SatisfiesLabelSelectors ⟨[]⟩ c3_td.label_selectors :=
  c3_empty_required_terms_no_constraint ⟨[]⟩ c3_td _ _ _ rfl rfl rfl rfl

/-- A resource carrying the label gpu=yes. -/
def c4_rd : ResourceDescriptor := ⟨[⟨"gpu", "yes"⟩]⟩

/-- A node selector term with zero match expressions. -/
def c4_emptyTerm : NodeSelectorTerm := ⟨[]⟩

/-- A node selector term requiring that the gpu key exists. -/
def c4_gpuTerm : NodeSelectorTerm := ⟨[⟨"gpu", "Exists", []⟩]⟩

/-- C4: a term with zero match expressions never matches; the empty term
list never matches; but a list holding one empty term next to a satisfied
non-empty term still matches overall. -/
theorem c4_empty_term_semantics (rd : ResourceDescriptor) :
    (∀ term : NodeSelectorTerm, term.matchExpressions = [] →
      NodeMatchesNodeSelectorTerm rd term = some false) ∧
    NodeMatchesNodeSelectorTerms rd [] = some false ∧
    NodeMatchesNodeSelectorTerms c4_rd [c4_emptyTerm, c4_gpuTerm] = some true := by
  refine ⟨?_, rfl, by decide⟩
  intro term h
  simp [NodeMatchesNodeSelectorTerm, h]

/-- Witness for C4 at the concrete empty term and gpu-labelled resource. -/
theorem c4_empty_term_semantics_witness :
    NodeMatchesNodeSelectorTerm c4_rd c4_emptyTerm = some false :=
  (c4_empty_term_semantics c4_rd).1 c4_emptyTerm rfl

/-- C5: when a task carries at least one explicit label selector and the
resource's labels fail the selector check, the placement predicate
rejects, whatever affinity the task declares. -/
theorem c5_selector_reject_overrides_affinity (rd : ResourceDescriptor)
    (td : TaskDescriptor) (hne : td.label_selectors ≠ [])
    (hfail : SatisfiesLabelSelectors rd td.label_selectors = some false) :
    SatisfiesNodeSelectorAndNodeAffinity rd td = some false := by
  unfold SatisfiesNodeSelectorAndNodeAffinity
  have hlen : td.label_selectors.length ≠ 0 := by
    simpa using fun h => hne (List.length_eq_zero.mp h)
  simp [hlen, hfail]

/-- A task with a failing label selector and a node affinity that the
resource of the witness does satisfy. -/
def c5_td : TaskDescriptor :=
  ⟨[⟨"zone", 0, ["us-west"]⟩],
    some ⟨some ⟨some ⟨[⟨[⟨"zone", "Exists", []⟩]⟩]⟩⟩⟩⟩

/-- A resource labelled zone=us-east: it satisfies c5_td's affinity term
but not its IN_SET(zone, us-west) label selector. -/
def c5_rd : ResourceDescriptor := ⟨[⟨"zone", "us-east"⟩]⟩

/-- Witness for C5: the label-selector failure rejects even though the
task's required node affinity is satisfied by the resource. -/
theorem c5_selector_reject_overrides_affinity_witness :
    SatisfiesNodeSelectorAndNodeAffinity c5_rd c5_td = some false :=
  c5_selector_reject_overrides_affinity c5_rd c5_td (by decide) (by decide)

/-- A resource whose label list binds the key zone twice. -/
def c6_rd : ResourceDescriptor := ⟨[⟨"zone", "us-east"⟩, ⟨"zone", "us-west"⟩]⟩

/-- An IN_SET selector matching only the second (last-written) value. -/
def c6_sel : LabelSelector := ⟨"zone", 0, ["us-west"]⟩

/-- C6 counterexample: on a resource listing zone=us-east then
zone=us-west, the map the code builds binds zone to us-east (the first
entry), so the selector evaluates to false while over a last-write-wins
map it would evaluate to true. -/
theorem c6_counterexample :
    FindOrNull (BuildLabelMap c6_rd.labels) "zone" = some "us-east" ∧
    SatisfiesLabelSelectorRD c6_rd c6_sel = some false ∧
    SatisfiesLabelSelectorMap (LastWriteWinsMap c6_rd.labels) c6_sel = some true := by
  exact ⟨by decide, by decide, by decide⟩

/-- C6 amended: the label map built for selector evaluation binds each
key to the value of the first entry carrying it (InsertIfNotPresent keeps
the existing binding, so first write wins), and a selector's result over a
resource equals its result over the first-write-wins association list of
the resource's labels. -/
theorem c6_first_write_wins (labels : List Label) (k : String)
    (rd : ResourceDescriptor) (sel : LabelSelector) :
    FindOrNull (BuildLabelMap labels) k =
      FindOrNull (FirstWriteWinsMap labels) k ∧
    SatisfiesLabelSelectorRD rd sel =
      SatisfiesLabelSelectorMap (FirstWriteWinsMap rd.labels) sel := by
  constructor
  · exact buildLabelMap_lookup labels k
  · unfold SatisfiesLabelSelectorRD SatisfiesLabelSelectorMap
    exact satisfiesLabelSelectorCore_lookup_congr _ _ _ _
      (buildLabelMap_lookup rd.labels sel.key)

/-- C7: the conversion of node-selector requirements maps the operator
name In to type 0 (IN_SET), NotIn to 1 (NOT_IN_SET), Exists to 2
(EXISTS_KEY), DoesNotExist to 3 (NOT_EXISTS_KEY) and every other operator
name to 0, copying the requirement's key and value list unchanged. -/
theorem c7_operator_mapping (mE : List NodeSelectorRequirement)
    (nsm : NodeSelectorRequirement) (i : Nat)
    (h : mE.get? i = some nsm) :
    ∃ sel : LabelSelector,
      (NodeSelectorRequirementsAsLabelSelectors mE).get? i = some sel ∧
      sel.key = nsm.key ∧ sel.values = nsm.values ∧
      (nsm.operator_ = "In" → sel.type = 0) ∧
      (nsm.operator_ = "NotIn" → sel.type = 1) ∧
      (nsm.operator_ = "Exists" → sel.type = 2) ∧
      (nsm.operator_ = "DoesNotExist" → sel.type = 3) ∧
      (nsm.operator_ ≠ "In" → nsm.operator_ ≠ "NotIn" →
        nsm.operator_ ≠ "Exists" → nsm.operator_ ≠ "DoesNotExist" →
        sel.type = 0) := by
  refine ⟨⟨nsm.key, OperatorToType nsm.operator_, nsm.values⟩,
    ?_, rfl, rfl, ?_, ?_, ?_, ?_, ?_⟩
  · unfold NodeSelectorRequirementsAsLabelSelectors
    rw [List.get?_map, h]
    rfl
  · intro hop
    show OperatorToType nsm.operator_ = 0
    rw [hop]
    decide
  · intro hop
    show OperatorToType nsm.operator_ = 1
    rw [hop]
    decide
  · intro hop
    show OperatorToType nsm.operator_ = 2
    rw [hop]
    decide
  · intro hop
    show OperatorToType nsm.operator_ = 3
    rw [hop]
    decide
  · intro h1 h2 h3 h4
    show OperatorToType nsm.operator_ = 0
    unfold OperatorToType
    rw [if_neg h1, if_neg h2, if_neg h3, if_neg h4]

/-- Witness for C7 at a concrete NotIn requirement. -/
theorem c7_operator_mapping_witness :
    (NodeSelectorRequirementsAsLabelSelectors
      [⟨"gpu", "NotIn", ["a"]⟩]).get? 0 = some ⟨"gpu", 1, ["a"]⟩ := by
  obtain ⟨sel, hget, hkey, hvals, _, hni, _, _, _⟩ :=
    c7_operator_mapping [⟨"gpu", "NotIn", ["a"]⟩] ⟨"gpu", "NotIn", ["a"]⟩ 0 rfl
  have ht : sel.type = 1 := hni rfl
  rw [hget]
  cases sel with
  | mk k t v =>
    simp only at hkey hvals ht
    rw [hkey, hvals, ht]

/-- The HashSelectors fold gives equal results from equal seeds on two
selector lists of equal length agreeing pointwise on key and values. -/
theorem hashSelectors_foldl_congr (hashStr : String → Nat)
    (hashCombine : Nat → Nat → Nat) :
    ∀ (s1 s2 : List LabelSelector) (seed : Nat), s1.length = s2.length →
    (∀ i (h1 : i < s1.length) (h2 : i < s2.length),
      (s1.get ⟨i, h1⟩).key = (s2.get ⟨i, h2⟩).key ∧
      (s1.get ⟨i, h1⟩).values = (s2.get ⟨i, h2⟩).values) →
    s1.foldl (HashSelectorStep hashStr hashCombine) seed =
      s2.foldl (HashSelectorStep hashStr hashCombine) seed := by
  intro s1
  induction s1 with
  | nil =>
    intro s2 seed hlen _
    have : s2 = [] := List.length_eq_zero.mp (hlen ▸ rfl)
    rw [this]
  | cons a r ih =>
    intro s2 seed hlen hpt
    cases s2 with
    | nil => simp at hlen
    | cons b r2 =>
      have h0 := hpt 0 (by simp) (by simp)
      simp only [List.get] at h0
      have hstep : HashSelectorStep hashStr hashCombine seed a =
          HashSelectorStep hashStr hashCombine seed b := by
        unfold HashSelectorStep
        rw [h0.1, h0.2]
      simp only [List.foldl_cons, hstep]
      refine ih r2 _ (by simpa using hlen) ?_
      intro i hi1 hi2
      exact hpt (i + 1) (by simpa using hi1) (by simpa using hi2)

/-- C10: HashSelectors depends only on keys and value lists — two selector
lists of equal length agreeing pointwise on key and values hash
identically whatever their selector types, for every choice of the string
hash and combine primitives. -/
theorem c10_hash_ignores_selector_type (hashStr : String → Nat)
    (hashCombine : Nat → Nat → Nat) (s1 s2 : List LabelSelector)
    (hlen : s1.length = s2.length)
    (hpt : ∀ i (h1 : i < s1.length) (h2 : i < s2.length),
      (s1.get ⟨i, h1⟩).key = (s2.get ⟨i, h2⟩).key ∧
      (s1.get ⟨i, h1⟩).values = (s2.get ⟨i, h2⟩).values) :
    HashSelectors hashStr hashCombine s1 = HashSelectors hashStr hashCombine s2 :=
  hashSelectors_foldl_congr hashStr hashCombine s1 s2 0 hlen hpt

/-- Witness for C10: an IN_SET and a NOT_IN_SET selector with the same key
and values hash identically (here with string length and addition standing
in for the hash primitives). -/
theorem c10_hash_ignores_selector_type_witness :
    HashSelectors String.length (fun a b => a + b) [⟨"zone", 0, ["us-east"]⟩] =
      HashSelectors String.length (fun a b => a + b) [⟨"zone", 1, ["us-east"]⟩] := by
  refine c10_hash_ignores_selector_type String.length (fun a b => a + b)
    _ _ rfl ?_
  intro i h1 h2
  have : i = 0 := by
    simpa using Nat.lt_one_iff.mp (by simpa using h1)
  subst this
  exact ⟨rfl, rfl⟩

end Firmament
